import Mathlib

/-!
Verification of the path-construction and CSV-loading utility in
`src/pxdatautil.py` (monthly UK GP prescribing data).

The Python module is embedded shallowly:

* machine integers of Python become `Int` (Python integers are unbounded,
  so no wrap-around modelling is needed);
* `assert cond, msg` becomes `Except String` with `Except.error msg` on a
  failed assertion;
* the module-level mutable `root_data_dir` configuration value is passed
  as an explicit `root : String` argument (the module default is kept as
  the constant `root_data_dir`);
* `pandas.read_csv` is modelled at the level of an already-tokenised CSV:
  a file is a `List (List String)` of rows of cells; `skiprows = n`
  becomes `List.drop n`;
* `pandas.to_datetime(..., format = YYYYMM)` on one cell is modelled by
  `parse_yyyymm`, which on a six-digit string whose last two digits form
  a month in 1..12 yields the first-of-month date and otherwise fails
  (the spec's ParseError contract);
* `os.path.isfile` is modelled by an ambient filesystem oracle
  `fs : String → Bool`; a `print`ed warning line becomes an element of the
  returned warning list.

Definitions named `spec_*` are NOT translations of the code: they follow
the wording of spec.md and are compared against the code-level
definitions in the theorems below.
-/

/-- Embeds the module-level constant `root_data_dir = './full_data/'`. -/
def root_data_dir : String := "./full_data/"

/-- Message of the `assert` in `validate_year`. -/
def year_err_msg : String := "Year must be between 2010 and 3000 (inclusive)"

/-- Message of the `assert` in `validate_month`. -/
def month_err_msg : String := "Months must be an integer between 1 and 12 (inclusive)"

/-- Message of the range `assert` in `get_data_filepath_prefixes`. -/
def range_err_msg : String := "\"To\" date must be before \"from\" date"

/-- Embeds `validate_year`: `assert (year >= 2010 and year <= 3000), ...`. -/
def validate_year (year : Int) : Except String Unit :=
  if year ≥ 2010 ∧ year ≤ 3000 then Except.ok () else Except.error year_err_msg

/-- Embeds `validate_month`: `assert (month > 0 and month < 13), ...`. -/
def validate_month (month : Int) : Except String Unit :=
  if month > 0 ∧ month < 13 then Except.ok () else Except.error month_err_msg

/-- Embeds `dt.datetime.strptime(str(month), '%m').strftime('%B')`: the full
English month name of a month number in 1..12 (the only months it is applied
to, `validate_month` having run first). -/
def month_name (m : Int) : String :=
  if m = 1 then "January" else if m = 2 then "February" else if m = 3 then "March"
  else if m = 4 then "April" else if m = 5 then "May" else if m = 6 then "June"
  else if m = 7 then "July" else if m = 8 then "August" else if m = 9 then "September"
  else if m = 10 then "October" else if m = 11 then "November" else if m = 12 then "December"
  else ""

/-- Embeds the Python format spec `{:0>2}`: the decimal string, left-filled
with `0` to width 2. -/
def pad2 (n : Int) : String :=
  let s := toString n
  if s.length < 2 then "0" ++ s else s

/-- Embeds `get_file_path_prefix(year, month)` from `src/pxdatautil.py`
(the module global `root_data_dir` is passed explicitly as `root`):
validate year and month, then build
`root ++ "<year>_<month:0>2>_<MonthName>/" ++ "T<year><month:0>2>"`. -/
def get_file_path_pref (root : String) (year month : Int) : Except String String :=
  match validate_year year with
  | Except.error e => Except.error e
  | Except.ok _ =>
    match validate_month month with
    | Except.error e => Except.error e
    | Except.ok _ =>
      Except.ok (root ++ (toString year ++ "_" ++ pad2 month ++ "_" ++ month_name month ++ "/")
        ++ ("T" ++ toString year ++ pad2 month))

/-- Bounds extracted from a successful `get_file_path_pref` call: the two
validations passed. -/
theorem pref_ok_bounds {root : String} {y m : Int} {p : String}
    (h : get_file_path_pref root y m = Except.ok p) :
    2010 ≤ y ∧ y ≤ 3000 ∧ 1 ≤ m ∧ m ≤ 12 := by
  unfold get_file_path_pref validate_year validate_month at h
  by_cases hy : y ≥ 2010 ∧ y ≤ 3000
  · by_cases hm : m > 0 ∧ m < 13
    · omega
    · rw [if_pos hy, if_neg hm] at h
      simp at h
  · rw [if_neg hy] at h
    simp at h

/-- Embeds the `while` loop of `get_data_filepath_prefixes`: starting from
`(current_year, current_month)`, append the month's prefix and advance
month-by-month (wrapping `13 → (year+1, 1)`) until
`current_year == year_to and current_month == month_to + 1`.
Termination: a successful `get_file_path_pref` bounds the state
(`year ≤ 3000`, `month ≤ 12`), so the measure below decreases; when the state
escapes those bounds the validation fails and the recursion stops with the
assertion error, exactly as the Python `assert` would raise. -/
def prefixes_loop (root : String) (year_to month_to current_year current_month : Int)
    (filepaths : List String) : Except String (List String) :=
  if current_year = year_to ∧ current_month = month_to + 1 then
    Except.ok filepaths
  else
    match h : get_file_path_pref root current_year current_month with
    | Except.error e => Except.error e
    | Except.ok p =>
      if current_month + 1 > 12 then
        prefixes_loop root year_to month_to (current_year + 1) 1 (filepaths ++ [p])
      else
        prefixes_loop root year_to month_to current_year (current_month + 1) (filepaths ++ [p])
termination_by (3001 - current_year).toNat * 13 + (13 - current_month).toNat
decreasing_by
  · have hb := pref_ok_bounds h
    omega
  · have hb := pref_ok_bounds h
    omega

/-- Embeds `get_data_filepath_prefixes(year_from, month_from, year_to, month_to)`:
the range `assert`, then the month loop started at the "from" month with an
empty accumulator. -/
def get_data_filepath_prefixes (root : String) (year_from month_from year_to month_to : Int) :
    Except String (List String) :=
  if year_from < year_to ∨ (year_from = year_to ∧ month_from ≤ month_to) then
    prefixes_loop root year_to month_to year_from month_from []
  else
    Except.error range_err_msg

/-- Embeds `get_address_data_filepath`. -/
def get_address_data_filepath (root : String) (year month : Int) : Except String String :=
  (get_file_path_pref root year month).map (fun p => p ++ "ADDR BNFT.CSV")

/-- Embeds `get_chems_data_filepath`. -/
def get_chems_data_filepath (root : String) (year month : Int) : Except String String :=
  (get_file_path_pref root year month).map (fun p => p ++ "CHEM SUBS.CSV")

/-- Embeds `get_prescription_data_filepath`. -/
def get_prescription_data_filepath (root : String) (year month : Int) : Except String String :=
  (get_file_path_pref root year month).map (fun p => p ++ "PDPI BNFT.CSV")

/-- Embeds `get_address_data_filepaths` (the per-range list version). -/
def get_address_data_filepaths (root : String) (yf mf yt mt : Int) :
    Except String (List String) :=
  (get_data_filepath_prefixes root yf mf yt mt).map (fun ps => ps.map (fun p => p ++ "ADDR BNFT.CSV"))

/-- Embeds `get_chems_data_filepaths`. -/
def get_chems_data_filepaths (root : String) (yf mf yt mt : Int) :
    Except String (List String) :=
  (get_data_filepath_prefixes root yf mf yt mt).map (fun ps => ps.map (fun p => p ++ "CHEM SUBS.CSV"))

/-- Embeds `get_prescription_data_filepaths`. -/
def get_prescription_data_filepaths (root : String) (yf mf yt mt : Int) :
    Except String (List String) :=
  (get_data_filepath_prefixes root yf mf yt mt).map (fun ps => ps.map (fun p => p ++ "PDPI BNFT.CSV"))

/-- Numeric value of a list of decimal digits (used by the YYYYMM
date-parsing model). -/
def digits_val (l : List Char) : Nat :=
  l.foldl (fun n c => n * 10 + (c.toNat - 48)) 0

/-- Model of `pd.to_datetime(cell, format='%Y%m')` on a single cell: a
six-digit string whose last two digits form a month in 1..12 is parsed to the
first-of-month date `(year, month, 1)`; anything else makes the load fail
(the ParseError contract of spec.md section 7). -/
def parse_yyyymm (s : String) : Except String (Int × Int × Int) :=
  if s.length = 6 ∧ s.toList.all Char.isDigit = true
      ∧ 1 ≤ digits_val (s.toList.drop 4) ∧ digits_val (s.toList.drop 4) ≤ 12 then
    Except.ok ((digits_val (s.toList.take 4) : Int), (digits_val (s.toList.drop 4) : Int), 1)
  else
    Except.error ("ParseError: " ++ s ++ " does not match format YYYYMM")

/-- One row of the address table, the 8 column names of `load_address_data`
assigned positionally; the `Year-Month` column holds the parsed
first-of-month date as `(year, month, day)`. -/
structure AddressRecord where
  year_month : Int × Int × Int
  practice_code : String
  practice_name : String
  addr1 : String
  addr2 : String
  addr3 : String
  addr4 : String
  post_code : String
  deriving DecidableEq

/-- One row of the chemicals table, the 2 column names of `load_chems_data`
assigned positionally. -/
structure ChemicalRecord where
  chem_code : String
  chem_name : String
  deriving DecidableEq

/-- One address row: the 8 columns positionally, the first parsed as YYYYMM.
A row of the wrong width is the spec's ParseError (row shape mismatch). -/
def parse_address_row (row : List String) : Except String AddressRecord :=
  match row with
  | [ym, pc, pn, a1, a2, a3, a4, post] =>
    (parse_yyyymm ym).map (fun d => ⟨d, pc, pn, a1, a2, a3, a4, post⟩)
  | _ => Except.error "ParseError: address row does not have 8 columns"

/-- Embeds `load_address_data` on the rows of the already-located CSV:
`pd.read_csv(..., names = <8 names>, index_col=False)` takes every row as
data (no `skiprows`), and the `Year-Month` column is then parsed with
format `%Y%m`. -/
def load_address_data (rows : List (List String)) : Except String (List AddressRecord) :=
  rows.mapM parse_address_row

/-- One chemicals row: the 2 columns positionally. -/
def parse_chem_row (row : List String) : Except String ChemicalRecord :=
  match row with
  | [c, n] => Except.ok ⟨c, n⟩
  | _ => Except.error "ParseError: chemicals row does not have 2 columns"

/-- Embeds `load_chems_data` on the rows of the already-located CSV:
`pd.read_csv(..., names = <2 names>, skiprows=1, index_col=False)` discards
exactly the first row and takes the rest as data. -/
def load_chems_data (rows : List (List String)) : Except String (List ChemicalRecord) :=
  (rows.drop 1).mapM parse_chem_row

/-- The warning line printed by `file_check` for a missing file. -/
def warn_msg (filepath : String) : String :=
  "WARNING: File not found - " ++ filepath

/-- Embeds `file_check(filepath)` with the filesystem as an oracle
`fs : String → Bool` (`os.path.isfile`): the list of warning lines printed. -/
def file_check (fs : String → Bool) (filepath : String) : List String :=
  if fs filepath then [] else [warn_msg filepath]

/-- Embeds `check_data(year_from, month_from, year_to, month_to)`: build the
three per-range filepath lists, then for each index `i` check the address,
chemicals and prescription file at `i`, in that order. The value is the
sequence of warning lines printed (the Python function returns `None`;
indexing with `getD ""` is total, and the three lists always have equal
length since they map the same prefix list). -/
def check_data (fs : String → Bool) (root : String) (yf mf yt mt : Int) :
    Except String (List String) :=
  match get_address_data_filepaths root yf mf yt mt with
  | Except.error e => Except.error e
  | Except.ok address_filepaths =>
    match get_chems_data_filepaths root yf mf yt mt with
    | Except.error e => Except.error e
    | Except.ok chems_filepaths =>
      match get_prescription_data_filepaths root yf mf yt mt with
      | Except.error e => Except.error e
      | Except.ok pxdata_filenames =>
        Except.ok ((List.range address_filepaths.length).flatMap (fun i =>
          file_check fs (address_filepaths.getD i "") ++
          file_check fs (chems_filepaths.getD i "") ++
          file_check fs (pxdata_filenames.getD i "")))

/-!
Specification-side definitions. These follow the wording of spec.md, not the
code, and are compared with the embedded code in the theorems below.
-/

/-- The full English month names, in calendar order (spec section 3:
`<MonthName>` is the full month name computed from the month number). -/
def spec_month_names : List String :=
  ["January", "February", "March", "April", "May", "June",
   "July", "August", "September", "October", "November", "December"]

/-- Spec-side month name: the `m`-th entry (1-indexed) of the English month
names. -/
def spec_month_name (m : Int) : String := spec_month_names.getD (m - 1).toNat ""

/-- Spec-side zero-padding of a month number to two digits (spec section 6:
"month zero-padded to 2 digits"). -/
def spec_pad2 (m : Int) : String := if 0 ≤ m ∧ m < 10 then "0" ++ toString m else toString m

/-- Spec-side form of a month's file-path stem (spec section 3):
`<root><year>_<02-month>_<MonthName>/T<year><02-month>`, the root used
verbatim in front of the month directory. -/
def spec_path_of_month (root : String) (y m : Int) : String :=
  root ++ toString y ++ "_" ++ spec_pad2 m ++ "_" ++ spec_month_name m
    ++ "/T" ++ toString y ++ spec_pad2 m

/-- Spec-side month successor (spec section 4.2: "advancing month-by-month
with carry into year on overflow past 12"). -/
def spec_next_month (ym : Int × Int) : Int × Int :=
  if ym.2 ≥ 12 then (ym.1 + 1, 1) else (ym.1, ym.2 + 1)

/-- The `n+1` consecutive calendar months starting at `ym`. -/
def months_from (ym : Int × Int) : Nat → List (Int × Int)
  | 0 => [ym]
  | Nat.succ n => ym :: months_from (spec_next_month ym) n

/-- Spec-side list of every month from "from" to "to" inclusive (spec
section 4.2); the step count is the calendar distance in months. -/
def spec_months_between (yf mf yt mt : Int) : List (Int × Int) :=
  months_from (yf, mf) (12 * (yt - yf) + (mt - mf)).toNat

/-- Spec-side list of the three expected files of every month of the range,
month-major, address then chemicals then prescriptions within a month
(spec sections 4.4 and 6). -/
def spec_expected_files (root : String) (yf mf yt mt : Int) : List String :=
  (spec_months_between yf mf yt mt).flatMap (fun ym =>
    [spec_path_of_month root ym.1 ym.2 ++ "ADDR BNFT.CSV",
     spec_path_of_month root ym.1 ym.2 ++ "CHEM SUBS.CSV",
     spec_path_of_month root ym.1 ym.2 ++ "PDPI BNFT.CSV"])

/-!
Helper lemmas about the path generator.
-/

/-- Prepending the path separator to a stem beginning with `T` merges into
the literal `/T`. -/
theorem slash_t_append (s : String) : "/" ++ ("T" ++ s) = "/T" ++ s := by
  rw [← String.append_assoc]
  rfl

/-- On valid months the Python `{:0>2}` padding agrees with the spec's
two-digit zero padding. -/
theorem pad2_eq_spec (m : Int) (h1 : 1 ≤ m) (h2 : m ≤ 12) : pad2 m = spec_pad2 m := by
  interval_cases m <;> rfl

/-- On valid months the `strftime('%B')` model agrees with the spec's month
name table. -/
theorem month_name_eq_spec (m : Int) (h1 : 1 ≤ m) (h2 : m ≤ 12) :
    month_name m = spec_month_name m := by
  interval_cases m <;> rfl

/-- On valid input the code's path stem is exactly the spec's form. -/
theorem pref_ok_value (root : String) (y m : Int)
    (h1 : 2010 ≤ y) (h2 : y ≤ 3000) (h3 : 1 ≤ m) (h4 : m ≤ 12) :
    get_file_path_pref root y m = Except.ok (spec_path_of_month root y m) := by
  have hv1 : validate_year y = Except.ok () := by
    unfold validate_year
    rw [if_pos ⟨h1, h2⟩]
  have hv2 : validate_month m = Except.ok () := by
    unfold validate_month
    rw [if_pos (show m > 0 ∧ m < 13 by omega)]
  simp only [get_file_path_pref, hv1, hv2]
  rw [pad2_eq_spec m h3 h4, month_name_eq_spec m h3 h4]
  unfold spec_path_of_month
  congr 1
  simp only [String.append_assoc]
  rw [slash_t_append]

/-- A year out of bounds fails with the year message (the year is validated
first, so this holds whatever the month is). -/
theorem pref_year_err (root : String) (y m : Int) (h : ¬(2010 ≤ y ∧ y ≤ 3000)) :
    get_file_path_pref root y m = Except.error year_err_msg := by
  unfold get_file_path_pref validate_year
  rw [if_neg (show ¬(y ≥ 2010 ∧ y ≤ 3000) from h)]

/-- A month out of bounds, with the year in bounds, fails with the month
message. -/
theorem pref_month_err (root : String) (y m : Int)
    (hy : 2010 ≤ y ∧ y ≤ 3000) (hm : ¬(1 ≤ m ∧ m ≤ 12)) :
    get_file_path_pref root y m = Except.error month_err_msg := by
  unfold get_file_path_pref validate_year validate_month
  rw [if_pos (show y ≥ 2010 ∧ y ≤ 3000 from hy)]
  rw [if_neg (show ¬(m > 0 ∧ m < 13) by omega)]

/-- The only failure messages of `get_file_path_pref` are the two validation
messages. -/
theorem pref_err_classify (root : String) (y m : Int) (e : String)
    (h : get_file_path_pref root y m = Except.error e) :
    e = year_err_msg ∨ e = month_err_msg := by
  by_cases hy : 2010 ≤ y ∧ y ≤ 3000
  · by_cases hm : 1 ≤ m ∧ m ≤ 12
    · rw [pref_ok_value root y m hy.1 hy.2 hm.1 hm.2] at h
      cases h
    · rw [pref_month_err root y m hy hm] at h
      cases h
      right
      rfl
  · rw [pref_year_err root y m hy] at h
    cases h
    left
    rfl

/-- Unfolding of the loop at its stop state. -/
theorem prefixes_loop_stop (root : String) (yt mt cy cm : Int) (acc : List String)
    (h : cy = yt ∧ cm = mt + 1) : prefixes_loop root yt mt cy cm acc = Except.ok acc := by
  rw [prefixes_loop.eq_def, if_pos h]

/-- Unfolding of the loop when the month's prefix fails validation. -/
theorem prefixes_loop_err (root : String) (yt mt cy cm : Int) (acc : List String) (e : String)
    (h1 : ¬(cy = yt ∧ cm = mt + 1))
    (h2 : get_file_path_pref root cy cm = Except.error e) :
    prefixes_loop root yt mt cy cm acc = Except.error e := by
  rw [prefixes_loop.eq_def, if_neg h1]
  split
  · rename_i e' he
    rw [h2] at he
    cases he
    rfl
  · rename_i p hp
    rw [h2] at hp
    cases hp

/-- Unfolding of the loop at a month whose prefix succeeds: append it and
advance, wrapping past December. -/
theorem prefixes_loop_ok_step (root : String) (yt mt cy cm : Int) (acc : List String) (p : String)
    (h1 : ¬(cy = yt ∧ cm = mt + 1))
    (h2 : get_file_path_pref root cy cm = Except.ok p) :
    prefixes_loop root yt mt cy cm acc =
      (if cm + 1 > 12 then prefixes_loop root yt mt (cy + 1) 1 (acc ++ [p])
       else prefixes_loop root yt mt cy (cm + 1) (acc ++ [p])) := by
  rw [prefixes_loop.eq_def, if_neg h1]
  split
  · rename_i e' he
    rw [h2] at he
    cases he
  · rename_i p' hp
    rw [h2] at hp
    cases hp
    rfl

/-- When the "to" month is December the stop test `month == month_to + 1`
asks for month 13, which the post-wrap month (always in 1..12) never
reaches: the loop runs past the end of the range until the year leaves the
validated interval, and the whole call fails with the year-bounds assertion
message. -/
theorem prefixes_loop_dec12 : ∀ (n : Nat) (root : String) (yt cy cm : Int) (acc : List String),
    (3001 - cy).toNat * 13 + (13 - cm).toNat ≤ n → 1 ≤ cm → cm ≤ 12 →
    prefixes_loop root yt 12 cy cm acc = Except.error year_err_msg := by
  intro n
  induction n with
  | zero =>
    intro root yt cy cm acc hle h1 h2
    omega
  | succ n ih =>
    intro root yt cy cm acc hle h1 h2
    have hstop : ¬(cy = yt ∧ cm = 12 + 1) := by omega
    by_cases hy : 2010 ≤ cy ∧ cy ≤ 3000
    · rw [prefixes_loop_ok_step root yt 12 cy cm acc _ hstop
        (pref_ok_value root cy cm hy.1 hy.2 h1 h2)]
      by_cases hc : cm + 1 > 12
      · rw [if_pos hc]
        exact ih root yt (cy + 1) 1 _ (by omega) (by omega) (by omega)
      · rw [if_neg hc]
        exact ih root yt cy (cm + 1) _ (by omega) (by omega) (by omega)
    · exact prefixes_loop_err root yt 12 cy cm acc _ hstop (pref_year_err root cy cm hy)

/-- The December failure surfaced through `get_data_filepath_prefixes`: any
range that passes the order check and ends in month 12 returns the
year-bounds assertion error instead of the month list. -/
theorem prefixes_dec12 (root : String) (yf mf yt : Int)
    (hg : yf < yt ∨ (yf = yt ∧ mf ≤ 12)) (h1 : 1 ≤ mf) (h2 : mf ≤ 12) :
    get_data_filepath_prefixes root yf mf yt 12 = Except.error year_err_msg := by
  unfold get_data_filepath_prefixes
  rw [if_pos hg]
  exact prefixes_loop_dec12 ((3001 - yf).toNat * 13 + (13 - mf).toNat) root yt yf mf []
    le_rfl h1 h2

/-- Refinement of the loop on in-range inputs: when the "to" month is at most
November and the current month is a valid month not after the "to" month, the
loop returns the accumulated list followed by one spec-form path stem per
remaining calendar month, in calendar order. -/
theorem prefixes_loop_spec : ∀ (n : Nat) (root : String) (yt mt cy cm : Int) (acc : List String),
    1 ≤ mt → mt ≤ 11 → yt ≤ 3000 → 2010 ≤ cy → 1 ≤ cm → cm ≤ 12 →
    12 * cy + cm ≤ 12 * yt + mt →
    n = (12 * (yt - cy) + (mt - cm)).toNat →
    prefixes_loop root yt mt cy cm acc =
      Except.ok (acc ++ (months_from (cy, cm) n).map (fun ym => spec_path_of_month root ym.1 ym.2)) := by
  intro n
  induction n with
  | zero =>
    intro root yt mt cy cm acc hmt1 hmt2 hyt hcy1 hcm1 hcm2 hidx hn
    have hcy : cy = yt := by omega
    have hcm : cm = mt := by omega
    subst hcy hcm
    rw [prefixes_loop_ok_step root cy cm cy cm acc _ (by omega)
      (pref_ok_value root cy cm hcy1 hyt hcm1 hcm2)]
    rw [if_neg (by omega)]
    rw [prefixes_loop_stop root cy cm cy (cm + 1) _ ⟨rfl, rfl⟩]
    simp [months_from]
  | succ n ih =>
    intro root yt mt cy cm acc hmt1 hmt2 hyt hcy1 hcm1 hcm2 hidx hn
    have hidx' : 12 * cy + cm < 12 * yt + mt := by omega
    have hstop : ¬(cy = yt ∧ cm = mt + 1) := by omega
    have hcy2 : cy ≤ 3000 := by omega
    rw [prefixes_loop_ok_step root yt mt cy cm acc _ hstop
      (pref_ok_value root cy cm hcy1 hcy2 hcm1 hcm2)]
    by_cases hc : cm + 1 > 12
    · rw [if_pos hc]
      rw [ih root yt mt (cy + 1) 1 _ hmt1 hmt2 hyt (by omega) (by omega) (by omega)
        (by omega) (by omega)]
      congr 1
      rw [show months_from (cy, cm) (n + 1) = (cy, cm) :: months_from (spec_next_month (cy, cm)) n from rfl]
      rw [show spec_next_month (cy, cm) = (cy + 1, 1) from by simp [spec_next_month]; omega]
      simp
    · rw [if_neg hc]
      rw [ih root yt mt cy (cm + 1) _ hmt1 hmt2 hyt hcy1 (by omega) (by omega)
        (by omega) (by omega)]
      congr 1
      rw [show months_from (cy, cm) (n + 1) = (cy, cm) :: months_from (spec_next_month (cy, cm)) n from rfl]
      rw [show spec_next_month (cy, cm) = (cy, cm + 1) from by simp [spec_next_month]; omega]
      simp

/-- Refinement of `get_data_filepath_prefixes` on in-range inputs ending no
later than November: exactly the spec's month list, mapped to spec-form
path stems. -/
theorem prefixes_spec (root : String) (yf mf yt mt : Int)
    (hmt1 : 1 ≤ mt) (hmt2 : mt ≤ 11) (hyf : 2010 ≤ yf) (hyt : yt ≤ 3000)
    (hmf1 : 1 ≤ mf) (hmf2 : mf ≤ 12)
    (hle : yf < yt ∨ (yf = yt ∧ mf ≤ mt)) :
    get_data_filepath_prefixes root yf mf yt mt =
      Except.ok ((spec_months_between yf mf yt mt).map (fun ym => spec_path_of_month root ym.1 ym.2)) := by
  unfold get_data_filepath_prefixes
  rw [if_pos hle]
  have := prefixes_loop_spec (12 * (yt - yf) + (mt - mf)).toNat root yt mt yf mf []
    hmt1 hmt2 hyt hyf hmf1 hmf2 (by omega) rfl
  simpa [spec_months_between] using this

/-- Inversion of a successful loop run: whenever the loop returns a list at
all, that list is the accumulated list followed by the spec-form path stems
of the calendar months from the current month to the "to" month. -/
theorem prefixes_loop_ok_inv : ∀ (n : Nat) (root : String) (yt mt cy cm : Int) (acc l : List String),
    (3001 - cy).toNat * 13 + (13 - cm).toNat ≤ n →
    prefixes_loop root yt mt cy cm acc = Except.ok l →
    (cy = yt ∧ cm = mt + 1 ∧ l = acc) ∨
    (2010 ≤ cy ∧ cy ≤ 3000 ∧ 1 ≤ cm ∧ cm ≤ 12 ∧ 12 * cy + cm ≤ 12 * yt + mt ∧
      l = acc ++ (months_from (cy, cm) (12 * (yt - cy) + (mt - cm)).toNat).map
        (fun ym => spec_path_of_month root ym.1 ym.2)) := by
  intro n
  induction n using Nat.strong_induction_on with
  | _ n ih =>
    intro root yt mt cy cm acc l hle hok
    by_cases hstop : cy = yt ∧ cm = mt + 1
    · left
      refine ⟨hstop.1, hstop.2, ?_⟩
      rw [prefixes_loop_stop root yt mt cy cm acc hstop] at hok
      cases hok
      rfl
    · rcases he : get_file_path_pref root cy cm with e | p
      · rw [prefixes_loop_err root yt mt cy cm acc e hstop he] at hok
        cases hok
      · have hb := pref_ok_bounds he
        have hpv := pref_ok_value root cy cm hb.1 hb.2.1 hb.2.2.1 hb.2.2.2
        rw [he] at hpv
        cases hpv
        rw [prefixes_loop_ok_step root yt mt cy cm acc _ hstop he] at hok
        right
        by_cases hc : cm + 1 > 12
        · rw [if_pos hc] at hok
          have hcm12 : cm = 12 := by omega
          have hnext := ih ((3001 - (cy + 1)).toNat * 13 + 12) (by omega)
            root yt mt (cy + 1) 1 _ l le_rfl hok
          rcases hnext with ⟨a1, a2, a3⟩ | ⟨b1, b2, b3, b4, b5, b6⟩
          · refine ⟨hb.1, hb.2.1, hb.2.2.1, hb.2.2.2, by omega, ?_⟩
            rw [show (12 * (yt - cy) + (mt - cm)).toNat = 0 from by omega]
            rw [a3]
            simp [months_from]
          · refine ⟨hb.1, hb.2.1, hb.2.2.1, hb.2.2.2, by omega, ?_⟩
            rw [show (12 * (yt - cy) + (mt - cm)).toNat
              = (12 * (yt - (cy + 1)) + (mt - 1)).toNat + 1 from by omega]
            rw [show months_from (cy, cm) ((12 * (yt - (cy + 1)) + (mt - 1)).toNat + 1)
              = (cy, cm) :: months_from (spec_next_month (cy, cm))
                  ((12 * (yt - (cy + 1)) + (mt - 1)).toNat) from rfl]
            rw [show spec_next_month (cy, cm) = (cy + 1, 1) from by
              simp [spec_next_month]; omega]
            rw [b6]
            simp
        · rw [if_neg hc] at hok
          have hnext := ih ((3001 - cy).toNat * 13 + (13 - (cm + 1)).toNat) (by omega)
            root yt mt cy (cm + 1) _ l le_rfl hok
          rcases hnext with ⟨a1, a2, a3⟩ | ⟨b1, b2, b3, b4, b5, b6⟩
          · refine ⟨hb.1, hb.2.1, hb.2.2.1, hb.2.2.2, by omega, ?_⟩
            rw [show (12 * (yt - cy) + (mt - cm)).toNat = 0 from by omega]
            rw [a3]
            simp [months_from]
          · refine ⟨hb.1, hb.2.1, hb.2.2.1, hb.2.2.2, by omega, ?_⟩
            rw [show (12 * (yt - cy) + (mt - cm)).toNat
              = (12 * (yt - cy) + (mt - (cm + 1))).toNat + 1 from by omega]
            rw [show months_from (cy, cm) ((12 * (yt - cy) + (mt - (cm + 1))).toNat + 1)
              = (cy, cm) :: months_from (spec_next_month (cy, cm))
                  ((12 * (yt - cy) + (mt - (cm + 1))).toNat) from rfl]
            rw [show spec_next_month (cy, cm) = (cy, cm + 1) from by
              simp [spec_next_month]; omega]
            rw [b6]
            simp

/-- Inversion of a successful `get_data_filepath_prefixes` call: any list it
returns is the spec month list mapped to spec-form path stems. -/
theorem prefixes_ok_inv (root : String) (yf mf yt mt : Int) (l : List String)
    (h : get_data_filepath_prefixes root yf mf yt mt = Except.ok l) :
    l = (spec_months_between yf mf yt mt).map (fun ym => spec_path_of_month root ym.1 ym.2) := by
  unfold get_data_filepath_prefixes at h
  by_cases hg : yf < yt ∨ (yf = yt ∧ mf ≤ mt)
  · rw [if_pos hg] at h
    rcases prefixes_loop_ok_inv ((3001 - yf).toNat * 13 + (13 - mf).toNat) root yt mt yf mf [] l
      le_rfl h with ⟨a1, a2, a3⟩ | ⟨b1, b2, b3, b4, b5, b6⟩
    · omega
    · rw [b6]
      simp [spec_months_between]
  · rw [if_neg hg] at h
    cases h

/-- Rewrites the index-driven triple check of `check_data` into a single pass
over the underlying path-stem list. -/
theorem range_flat_check (fs : String → Bool) (fA fC fP : String → String) : ∀ ps : List String,
    (List.range (ps.map fA).length).flatMap (fun i =>
        file_check fs ((ps.map fA).getD i "") ++ file_check fs ((ps.map fC).getD i "")
          ++ file_check fs ((ps.map fP).getD i "")) =
    ps.flatMap (fun p => file_check fs (fA p) ++ file_check fs (fC p) ++ file_check fs (fP p)) := by
  intro ps
  induction ps with
  | nil => simp
  | cons p ps ih =>
    simp only [List.map_cons, List.length_cons, List.range_succ_eq_map, List.flatMap_cons,
      List.flatMap_map, List.getD_cons_zero, List.getD_cons_succ]
    rw [← ih]

/-- The warnings of a pass over the stems are exactly one warning line per
missing file, in the order the files are examined. -/
theorem flat_check_filter (fs : String → Bool) (fA fC fP : String → String) : ∀ ps : List String,
    ps.flatMap (fun p => file_check fs (fA p) ++ file_check fs (fC p) ++ file_check fs (fP p)) =
    ((ps.flatMap (fun p => [fA p, fC p, fP p])).filter (fun q => !(fs q))).map warn_msg := by
  intro ps
  induction ps with
  | nil => rfl
  | cons p ps ih =>
    simp only [List.flatMap_cons, List.filter_append, List.map_append, ih]
    congr 1
    rcases hA : fs (fA p) <;> rcases hC : fs (fC p) <;> rcases hP : fs (fP p) <;>
      simp [file_check, hA, hC, hP, List.filter]

/-- On an in-range request ending no later than November, `check_data`
returns (in file-examination order) exactly one warning per missing expected
file and no others. -/
theorem check_data_warnings (fs : String → Bool) (root : String) (yf mf yt mt : Int)
    (hmt1 : 1 ≤ mt) (hmt2 : mt ≤ 11) (hyf : 2010 ≤ yf) (hyt : yt ≤ 3000)
    (hmf1 : 1 ≤ mf) (hmf2 : mf ≤ 12)
    (hle : yf < yt ∨ (yf = yt ∧ mf ≤ mt)) :
    check_data fs root yf mf yt mt =
      Except.ok (((spec_expected_files root yf mf yt mt).filter (fun q => !(fs q))).map warn_msg) := by
  have hp := prefixes_spec root yf mf yt mt hmt1 hmt2 hyf hyt hmf1 hmf2 hle
  unfold check_data get_address_data_filepaths get_chems_data_filepaths
    get_prescription_data_filepaths
  rw [hp]
  simp only [Except.map]
  congr 1
  rw [range_flat_check, flat_check_filter]
  rw [List.flatMap_map]
  rfl

/-- Whenever `check_data` returns at all, its warnings are exactly those of
the ordered expected-file list filtered to the missing files. -/
theorem check_data_ok_inv (fs : String → Bool) (root : String) (yf mf yt mt : Int) (ws : List String)
    (h : check_data fs root yf mf yt mt = Except.ok ws) :
    ws = ((spec_expected_files root yf mf yt mt).filter (fun q => !(fs q))).map warn_msg := by
  rcases hx : get_data_filepath_prefixes root yf mf yt mt with e | ps
  · unfold check_data get_address_data_filepaths at h
    rw [hx] at h
    simp [Except.map] at h
  · have hps := prefixes_ok_inv root yf mf yt mt ps hx
    unfold check_data get_address_data_filepaths get_chems_data_filepaths
      get_prescription_data_filepaths at h
    rw [hx] at h
    simp only [Except.map] at h
    injection h with h
    rw [← h]
    subst hps
    rw [range_flat_check, flat_check_filter]
    rw [List.flatMap_map]
    rfl

/-- Spec-side well-formedness of a `YYYYMM` cell: six digits whose last two
form a month in 1..12. -/
def yyyymm_wf (s : String) : Prop :=
  s.length = 6 ∧ s.toList.all Char.isDigit = true
    ∧ 1 ≤ digits_val (s.toList.drop 4) ∧ digits_val (s.toList.drop 4) ≤ 12

instance yyyymm_wf_dec (s : String) : Decidable (yyyymm_wf s) := by
  unfold yyyymm_wf
  infer_instance

/-- Spec-side address record of a row (spec section 4.3): the 8 fixed column
names assigned positionally, the first column parsed from `YYYYMM` into the
first-of-month date. -/
def spec_address_record (row : List String) : AddressRecord :=
  { year_month := ((digits_val ((row.getD 0 "").toList.take 4) : Int),
                   (digits_val ((row.getD 0 "").toList.drop 4) : Int), 1)
    practice_code := row.getD 1 ""
    practice_name := row.getD 2 ""
    addr1 := row.getD 3 ""
    addr2 := row.getD 4 ""
    addr3 := row.getD 5 ""
    addr4 := row.getD 6 ""
    post_code := row.getD 7 "" }

/-- Spec-side chemicals record of a row (spec section 4.3): the 2 fixed
column names assigned positionally. -/
def spec_chem_record (row : List String) : ChemicalRecord :=
  { chem_code := row.getD 0 "", chem_name := row.getD 1 "" }

/-- A well-formed address row parses to exactly the spec's record. -/
theorem parse_address_row_wf (row : List String) (h8 : row.length = 8)
    (hwf : yyyymm_wf (row.getD 0 "")) :
    parse_address_row row = Except.ok (spec_address_record row) := by
  rcases row with _ | ⟨a, row⟩
  · simp at h8
  rcases row with _ | ⟨b, row⟩
  · simp at h8
  rcases row with _ | ⟨c, row⟩
  · simp at h8
  rcases row with _ | ⟨d, row⟩
  · simp at h8
  rcases row with _ | ⟨e, row⟩
  · simp at h8
  rcases row with _ | ⟨f, row⟩
  · simp at h8
  rcases row with _ | ⟨g, row⟩
  · simp at h8
  rcases row with _ | ⟨h', row⟩
  · simp at h8
  rcases row with _ | ⟨i, row⟩
  · unfold yyyymm_wf at hwf
    simp only [parse_address_row, parse_yyyymm]
    rw [if_pos (by simpa using hwf)]
    rfl
  · simp at h8

/-- On a file of well-formed rows the address loader returns one spec record
per row, in file order, treating every row as data. -/
theorem load_address_spec (rows : List (List String))
    (h : ∀ r ∈ rows, r.length = 8 ∧ yyyymm_wf (r.getD 0 "")) :
    load_address_data rows = Except.ok (rows.map spec_address_record) := by
  induction rows with
  | nil => rfl
  | cons r rows ih =>
    have hr := h r (by simp)
    have ihr := ih (fun x hx => h x (by simp [hx]))
    unfold load_address_data at ihr ⊢
    rw [List.mapM_cons, parse_address_row_wf r hr.1 hr.2, ihr]
    rfl

/-- A two-column chemicals row parses to exactly the spec's record. -/
theorem parse_chem_row_wf (row : List String) (h2 : row.length = 2) :
    parse_chem_row row = Except.ok (spec_chem_record row) := by
  rcases row with _ | ⟨a, row⟩
  · simp at h2
  rcases row with _ | ⟨b, row⟩
  · simp at h2
  rcases row with _ | ⟨c, row⟩
  · rfl
  · simp at h2

/-- Mapping the chemicals parser over well-formed data rows yields one spec
record per row. -/
theorem chems_rows_mapM (rest : List (List String)) (h : ∀ r ∈ rest, r.length = 2) :
    rest.mapM parse_chem_row = Except.ok (rest.map spec_chem_record) := by
  induction rest with
  | nil => rfl
  | cons r rest ih =>
    have hr := h r (by simp)
    have ihr := ih (fun x hx => h x (by simp [hx]))
    rw [List.mapM_cons, parse_chem_row_wf r hr, ihr]
    rfl

/-- The chemicals loader drops exactly the header row and returns one spec
record per remaining row, in file order. -/
theorem load_chems_spec (header : List String) (rest : List (List String))
    (h : ∀ r ∈ rest, r.length = 2) :
    load_chems_data (header :: rest) = Except.ok (rest.map spec_chem_record) := by
  unfold load_chems_data
  rw [show (header :: rest).drop 1 = rest from rfl]
  exact chems_rows_mapM rest h

/-- The only failure messages of the loop are the two validation messages;
in particular the range-order message never comes from the loop. -/
theorem prefixes_loop_err_classify : ∀ (n : Nat) (root : String) (yt mt cy cm : Int)
    (acc : List String) (e : String),
    (3001 - cy).toNat * 13 + (13 - cm).toNat ≤ n →
    prefixes_loop root yt mt cy cm acc = Except.error e →
    e = year_err_msg ∨ e = month_err_msg := by
  intro n
  induction n using Nat.strong_induction_on with
  | _ n ih =>
    intro root yt mt cy cm acc e hle herr
    by_cases hstop : cy = yt ∧ cm = mt + 1
    · rw [prefixes_loop_stop root yt mt cy cm acc hstop] at herr
      cases herr
    · rcases he : get_file_path_pref root cy cm with e' | p
      · rw [prefixes_loop_err root yt mt cy cm acc e' hstop he] at herr
        injection herr with herr
        subst herr
        exact pref_err_classify root cy cm _ he
      · have hb := pref_ok_bounds he
        rw [prefixes_loop_ok_step root yt mt cy cm acc _ hstop he] at herr
        by_cases hc : cm + 1 > 12
        · rw [if_pos hc] at herr
          exact ih ((3001 - (cy + 1)).toNat * 13 + 12) (by omega) root yt mt (cy + 1) 1 _ e
            le_rfl herr
        · rw [if_neg hc] at herr
          exact ih ((3001 - cy).toNat * 13 + (13 - (cm + 1)).toNat) (by omega) root yt mt cy
            (cm + 1) _ e le_rfl herr

/-- A failure of range generation short-circuits `check_data` into the same
error before any file is examined. -/
theorem check_data_err (fs : String → Bool) (root : String) (yf mf yt mt : Int) (e : String)
    (h : get_data_filepath_prefixes root yf mf yt mt = Except.error e) :
    check_data fs root yf mf yt mt = Except.error e := by
  unfold check_data get_address_data_filepaths
  rw [h]
  rfl

/-!
The claim theorems. One theorem (plus witness or counterexample where
required) per claim of the specification review.
-/

/-- C1: the claimed behaviour — one prefix per calendar month from "from" to
"to" inclusive for every valid range — holds on the quoted example
(2013-11..2014-02 gives exactly the 4 expected prefixes in order) but fails
whenever the "to" month is December: `filePathPrefixes(2013,11,2013,12)`
does not return the 2 prefixes for 2013-11 and 2013-12; the loop's stop test
compares the post-wrap month (always 1..12) against `month_to + 1 = 13`,
never stops, and the call aborts with the year-validation assertion once the
running year passes 3000. -/
theorem range_prefixes_december_divergence :
    get_data_filepath_prefixes root_data_dir 2013 11 2014 2 =
      Except.ok ["./full_data/2013_11_November/T201311", "./full_data/2013_12_December/T201312",
        "./full_data/2014_01_January/T201401", "./full_data/2014_02_February/T201402"]
    ∧ get_data_filepath_prefixes root_data_dir 2013 11 2013 12 = Except.error year_err_msg := by
  constructor
  · rw [prefixes_spec root_data_dir 2013 11 2014 2 (by omega) (by omega) (by omega) (by omega)
      (by omega) (by omega) (by omega)]
    rw [Except.ok.injEq]
    decide
  · exact prefixes_dec12 root_data_dir 2013 11 2013 (by omega) (by omega) (by omega)

/-- C2: the claimed normal termination of the month loop holds for
"from" = "to" on a non-December month (2013-05..2013-05 returns exactly its
one prefix) but fails for every range whose "to" month is December:
`filePathPrefixes(2010,12,2010,12)` does not return normally — the loop
overruns the end of the range and aborts with the year-bounds assertion. -/
theorem range_loop_termination_divergence :
    get_data_filepath_prefixes root_data_dir 2013 5 2013 5 =
      Except.ok ["./full_data/2013_05_May/T201305"]
    ∧ get_data_filepath_prefixes root_data_dir 2010 12 2010 12 = Except.error year_err_msg := by
  constructor
  · rw [prefixes_spec root_data_dir 2013 5 2013 5 (by omega) (by omega) (by omega) (by omega)
      (by omega) (by omega) (by omega)]
    rw [Except.ok.injEq]
    decide
  · exact prefixes_dec12 root_data_dir 2010 12 2010 (by omega) (by omega) (by omega)

/-- C3: for every year in 2010..3000 and month in 1..12, `filePathPrefix`
returns `<root>/<year>_<MM>_<MonthName>/T<year><MM>` — with the configured
default root `./full_data/`, the zero-padded month, and the full English
month name from the spec's table. -/
theorem file_path_stem_form (y m : Int) (hy1 : 2010 ≤ y) (hy2 : y ≤ 3000)
    (hm1 : 1 ≤ m) (hm2 : m ≤ 12) :
    get_file_path_pref root_data_dir y m =
      Except.ok ("./full_data" ++ "/" ++ toString y ++ "_" ++ spec_pad2 m ++ "_"
        ++ spec_month_name m ++ "/T" ++ toString y ++ spec_pad2 m) := by
  rw [pref_ok_value root_data_dir y m hy1 hy2 hm1 hm2]
  unfold spec_path_of_month root_data_dir
  rw [show ("./full_data" : String) ++ "/" = "./full_data/" from rfl]

/-- Witness for C3 at the spec's example (2013, April): the prefix is
`./full_data/2013_04_April/T201304`, which ends in `2013_04_April/T201304`. -/
theorem file_path_stem_form_witness :
    get_file_path_pref root_data_dir 2013 4 = Except.ok "./full_data/2013_04_April/T201304"
    ∧ ∃ pre, "./full_data/2013_04_April/T201304" = pre ++ "2013_04_April/T201304" := by
  constructor
  · rw [file_path_stem_form 2013 4 (by omega) (by omega) (by omega) (by omega)]
    rw [Except.ok.injEq]
    decide
  · exact ⟨"./full_data/", by decide⟩

/-- C4: `filePathPrefix` fails exactly on out-of-bounds input, with the
message naming the violated bound: the year message when the year is outside
2010..3000 (checked first), the month message when the year is in bounds but
the month is outside 1..12, and success whenever both are in bounds. -/
theorem file_path_validation (root : String) (y m : Int) :
    ((y < 2010 ∨ 3000 < y) → get_file_path_pref root y m = Except.error year_err_msg)
    ∧ ((2010 ≤ y ∧ y ≤ 3000) → (m < 1 ∨ 12 < m) →
        get_file_path_pref root y m = Except.error month_err_msg)
    ∧ ((2010 ≤ y ∧ y ≤ 3000 ∧ 1 ≤ m ∧ m ≤ 12) →
        ∃ s, get_file_path_pref root y m = Except.ok s) := by
  refine ⟨?_, ?_, ?_⟩
  · intro h
    exact pref_year_err root y m (by omega)
  · intro hy hm
    exact pref_month_err root y m hy (by omega)
  · intro h
    exact ⟨_, pref_ok_value root y m h.1 h.2.1 h.2.2.1 h.2.2.2⟩

/-- Witness for C4 at the four boundary inputs of the spec (years 2009 and
3001, months 0 and 13) and one valid input. -/
theorem file_path_validation_witness :
    get_file_path_pref root_data_dir 2009 6 = Except.error year_err_msg
    ∧ get_file_path_pref root_data_dir 3001 6 = Except.error year_err_msg
    ∧ get_file_path_pref root_data_dir 2013 0 = Except.error month_err_msg
    ∧ get_file_path_pref root_data_dir 2013 13 = Except.error month_err_msg
    ∧ ∃ s, get_file_path_pref root_data_dir 2013 4 = Except.ok s :=
  ⟨(file_path_validation root_data_dir 2009 6).1 (by omega),
   (file_path_validation root_data_dir 3001 6).1 (by omega),
   (file_path_validation root_data_dir 2013 0).2.1 (by omega) (by omega),
   (file_path_validation root_data_dir 2013 13).2.1 (by omega) (by omega),
   (file_path_validation root_data_dir 2013 4).2.2 (by omega)⟩

/-- C5: `filePathPrefixes` fails with the range-order error exactly when the
"from" month is strictly after the "to" month in calendar order (year first,
then month); no other input produces that error. -/
theorem range_error_iff (root : String) (yf mf yt mt : Int) :
    get_data_filepath_prefixes root yf mf yt mt = Except.error range_err_msg
      ↔ (yt < yf ∨ (yf = yt ∧ mt < mf)) := by
  unfold get_data_filepath_prefixes
  by_cases hg : yf < yt ∨ (yf = yt ∧ mf ≤ mt)
  · rw [if_pos hg]
    constructor
    · intro h
      rcases prefixes_loop_err_classify ((3001 - yf).toNat * 13 + (13 - mf).toNat) root yt mt
        yf mf [] range_err_msg le_rfl h with h' | h' <;> exact absurd h' (by decide)
    · intro h
      exact absurd hg (by omega)
  · rw [if_neg hg]
    constructor
    · intro _
      omega
    · intro _
      rfl

/-- Witness for C5 at the spec's example: 2014-02 is after 2013-11, so the
call fails with the range error. -/
theorem range_error_iff_witness :
    get_data_filepath_prefixes root_data_dir 2014 2 2013 11 = Except.error range_err_msg :=
  (range_error_iff root_data_dir 2014 2 2013 11).mpr (by omega)

/-- C6: on a well-formed address CSV (every row 8 cells, first cell a valid
YYYYMM), the loader treats every row as data, returns one record per row in
file order with the 8 columns assigned positionally, and parses the first
column into the first-of-month date. -/
theorem address_loader_rows (rows : List (List String))
    (h : ∀ r ∈ rows, r.length = 8 ∧ yyyymm_wf (r.getD 0 "")) :
    load_address_data rows = Except.ok (rows.map spec_address_record)
    ∧ (rows.map spec_address_record).length = rows.length :=
  ⟨load_address_spec rows h, by simp⟩

/-- A well-formed two-row address file, in the on-disk format. -/
def sample_address_rows : List (List String) :=
  [["201304", "P81001", "THE DENSHAM SURGERY", "THE HEALTH CENTRE", "LAWSON STREET",
    "STOCKTON", "CLEVELAND", "TS18 1HU"],
   ["201304", "P81002", "QUEENS PARK MEDICAL CENTRE", "QUEENS PARK MEDICAL CTR",
    "FARRER STREET", "STOCKTON", "CLEVELAND", "TS18 2AW"]]

/-- Witness for C6: the two-row sample file yields exactly 2 records and the
first record's date is 2013-04-01. -/
theorem address_loader_rows_witness :
    load_address_data sample_address_rows = Except.ok (sample_address_rows.map spec_address_record)
    ∧ (sample_address_rows.map spec_address_record).length = 2
    ∧ (spec_address_record (sample_address_rows.getD 0 [])).year_month = (2013, 4, 1) :=
  ⟨(address_loader_rows sample_address_rows (by decide)).1, by decide, by decide⟩

/-- C7: on a chemicals CSV of a header row followed by N two-cell data rows,
the loader discards exactly the header and returns exactly N records in file
order with the 2 columns assigned positionally, whatever the header says. -/
theorem chems_loader_skips_header (header : List String) (rest : List (List String))
    (h : ∀ r ∈ rest, r.length = 2) :
    load_chems_data (header :: rest) = Except.ok (rest.map spec_chem_record)
    ∧ (rest.map spec_chem_record).length = rest.length :=
  ⟨load_chems_spec header rest h, by simp⟩

/-- The header row of a chemicals file. -/
def sample_chems_header : List String := ["CHEM CODE", "CHEM NAME"]

/-- Three data rows of a chemicals file. -/
def sample_chems_rest : List (List String) :=
  [["0101010A0", "Alexitol Sodium"], ["0101010B0", "Almasilate"],
   ["0101010C0", "Aluminium Hydroxide"]]

/-- Witness for C7: a header plus 3 data rows yields exactly 3 records. -/
theorem chems_loader_skips_header_witness :
    load_chems_data (sample_chems_header :: sample_chems_rest) =
      Except.ok (sample_chems_rest.map spec_chem_record)
    ∧ (sample_chems_rest.map spec_chem_record).length = 3 :=
  ⟨(chems_loader_skips_header sample_chems_header sample_chems_rest (by decide)).1, by decide⟩

/-- C8 counterexample: over the valid range 2012-03..2012-12 and a filesystem
in which every file exists, `checkData` does not check the range's files and
return — it fails with the year-bounds assertion error (the December range
bug), refuting the claim as stated over every valid range. -/
theorem check_data_december_counterexample :
    check_data (fun _ => true) root_data_dir 2012 3 2012 12 = Except.error year_err_msg :=
  check_data_err (fun _ => true) root_data_dir 2012 3 2012 12 year_err_msg
    (prefixes_dec12 root_data_dir 2012 3 2012 (by omega) (by omega) (by omega))

/-- C8 (amended to ranges whose "to" month is at most November, the ranges on
which path generation succeeds): `checkData` never fails, checks all three
expected files of every month of the range, and its warnings are exactly one
line per missing file — the warning containing that file's path — and none
for files that exist. -/
theorem check_data_warns_per_missing_file (fs : String → Bool) (root : String) (yf mf yt mt : Int)
    (hyf : 2010 ≤ yf) (hyt : yt ≤ 3000) (hmf1 : 1 ≤ mf) (hmf2 : mf ≤ 12)
    (hmt1 : 1 ≤ mt) (hmt2 : mt ≤ 11) (hle : yf < yt ∨ (yf = yt ∧ mf ≤ mt)) :
    ∃ ws, check_data fs root yf mf yt mt = Except.ok ws
      ∧ ws = ((spec_expected_files root yf mf yt mt).filter (fun q => !(fs q))).map warn_msg :=
  ⟨_, check_data_warnings fs root yf mf yt mt hmt1 hmt2 hyf hyt hmf1 hmf2 hle, rfl⟩

/-- A filesystem in which every expected file exists except the November 2013
address file. -/
def sample_fs : String → Bool :=
  fun p => !(p == "./full_data/2013_11_November/T201311ADDR BNFT.CSV")

/-- Witness for C8 on the spec's scenario: a 2-month range with one of the
six expected files absent completes and emits exactly one warning naming
that file's path. -/
theorem check_data_warns_per_missing_file_witness :
    ∃ ws, check_data sample_fs root_data_dir 2013 10 2013 11 = Except.ok ws
      ∧ ws = ["WARNING: File not found - ./full_data/2013_11_November/T201311ADDR BNFT.CSV"] := by
  obtain ⟨ws, h1, h2⟩ := check_data_warns_per_missing_file sample_fs root_data_dir 2013 10 2013 11
    (by omega) (by omega) (by omega) (by omega) (by omega) (by omega) (by omega)
  refine ⟨ws, h1, ?_⟩
  rw [h2]
  decide

/-- C9: the configured root is used verbatim — the returned string is the
root concatenated directly onto the month-directory name with no separator
inserted between them. -/
theorem root_concatenated_verbatim (root : String) (y m : Int) (hy1 : 2010 ≤ y) (hy2 : y ≤ 3000)
    (hm1 : 1 ≤ m) (hm2 : m ≤ 12) :
    get_file_path_pref root y m =
      Except.ok (root ++ (toString y ++ "_" ++ spec_pad2 m ++ "_" ++ spec_month_name m
        ++ "/T" ++ toString y ++ spec_pad2 m)) := by
  rw [pref_ok_value root y m hy1 hy2 hm1 hm2]
  unfold spec_path_of_month
  congr 1
  simp [String.append_assoc]

/-- Witness for C9: with a root that does not end in `/`, the root and the
month-directory name fuse into a single path segment. -/
theorem root_concatenated_verbatim_witness :
    get_file_path_pref "data" 2013 4 = Except.ok "data2013_04_April/T201304"
    ∧ "data2013_04_April/T201304" ≠ "data/2013_04_April/T201304" := by
  constructor
  · rw [root_concatenated_verbatim "data" 2013 4 (by omega) (by omega) (by omega) (by omega)]
    rw [Except.ok.injEq]
    decide
  · decide

/-- C10: whatever warnings `checkData` emits are exactly the missing entries
of the expected-file list taken in its canonical order — the months of the
range in calendar order and, within each month, the address file, then the
chemicals file, then the prescriptions file. -/
theorem check_data_warning_order (fs : String → Bool) (root : String) (yf mf yt mt : Int)
    (ws : List String) (h : check_data fs root yf mf yt mt = Except.ok ws) :
    ws = ((spec_expected_files root yf mf yt mt).filter (fun q => !(fs q))).map warn_msg :=
  check_data_ok_inv fs root yf mf yt mt ws h

/-- A filesystem in which every expected file exists except the February 2014
chemicals file. -/
def sample_fs2 : String → Bool :=
  fun p => !(p == "./full_data/2014_02_February/T201402CHEM SUBS.CSV")

/-- Witness for C10 on a 2-month range with the February 2014 chemicals file
absent: the single emitted warning is the corresponding entry of the ordered
expected-file list. -/
theorem check_data_warning_order_witness :
    ["WARNING: File not found - ./full_data/2014_02_February/T201402CHEM SUBS.CSV"] =
      ((spec_expected_files root_data_dir 2014 1 2014 2).filter
        (fun q => !(sample_fs2 q))).map warn_msg := by
  apply check_data_warning_order sample_fs2 root_data_dir 2014 1 2014 2
  rw [check_data_warnings sample_fs2 root_data_dir 2014 1 2014 2 (by omega) (by omega) (by omega)
    (by omega) (by omega) (by omega) (by omega)]
  rw [Except.ok.injEq]
  decide
